import Mathlib

/-!
Verification of the smart-home-agents repository: a shallow embedding of
the agent module (`src/agents/cleaning_agent.py`), the domain models
(`src/domain/models.py`), the exception hierarchy
(`src/domain/exceptions.py`) and the logging helper
(`src/infrastructure/logging.py`), together with theorems settling the
spec's claims about them.

Python floats carry no arithmetic in this code base (they are only
compared against the literal `20` and copied around), so battery values
are embedded as rationals: every IEEE double is a rational and the order
on doubles agrees with the order on their rational images, hence every
comparison in the embedding coincides with the one the source performs.
-/

/-- Python exception classes that occur in the repository, one constructor
per class.  `Exception` is the Python built-in root; `ValueError` is the
built-in parent of pydantic's `ValidationError`; `SmartHomeError`,
`DomainLowBatteryError` (the `LowBatteryError` of
`src/domain/exceptions.py`), `SensorError` and `NavigationError` come from
`src/domain/exceptions.py`; `AgentLowBatteryError` is the distinct
`LowBatteryError` defined inside `src/agents/cleaning_agent.py`. -/
inductive ExcClass
  | Exception
  | ValueError
  | ValidationError
  | SmartHomeError
  | DomainLowBatteryError
  | SensorError
  | NavigationError
  | AgentLowBatteryError
  deriving DecidableEq

/-- Direct base class of each exception class, as written in the source:
`class SmartHomeError(Exception)`, `class LowBatteryError(SmartHomeError)`,
`class SensorError(SmartHomeError)`, `class NavigationError(SmartHomeError)`
in `src/domain/exceptions.py`, and `class LowBatteryError(Exception)` in
`src/agents/cleaning_agent.py`.  pydantic's `ValidationError` derives from
the built-in `ValueError`. -/
def ExcClass.parent : ExcClass → Option ExcClass
  | .Exception => none
  | .ValueError => some .Exception
  | .ValidationError => some .ValueError
  | .SmartHomeError => some .Exception
  | .DomainLowBatteryError => some .SmartHomeError
  | .SensorError => some .SmartHomeError
  | .NavigationError => some .SmartHomeError
  | .AgentLowBatteryError => some .Exception

/-- Walks the (single-inheritance) base-class chain for at most `fuel`
steps, checking whether `c` is `d` or inherits from `d`. -/
def ExcClass.isSubclassOfAux : Nat → ExcClass → ExcClass → Bool
  | 0, _, _ => false
  | fuel + 1, c, d =>
      c = d ||
      match c.parent with
      | none => false
      | some p => ExcClass.isSubclassOfAux fuel p d

/-- Python's `issubclass`: reflexive-transitive closure of the base-class
relation.  The hierarchy is at most three classes deep, so a fuel of 8
exhausts every chain. -/
def ExcClass.isSubclassOf (c d : ExcClass) : Bool :=
  ExcClass.isSubclassOfAux 8 c d

/-- A Python `except D:` handler catches a raised instance of class `c`
exactly when `c` is a subclass of `D`. -/
def ExcClass.catches (handler raised : ExcClass) : Bool :=
  raised.isSubclassOf handler

/-- A raised Python exception: its concrete class and the message it
carries. -/
structure PyExc where
  cls : ExcClass
  msg : String
  deriving DecidableEq

/-- The `CleaningState` pydantic model of `src/agents/cleaning_agent.py`:
text-typed fields with defaults `battery_level = 100.0`,
`current_room = "living_room"`, `cleaning_path = []`. -/
structure CleaningState where
  battery_level : ℚ := 100
  current_room : String := "living_room"
  cleaning_path : List String := []
  deriving DecidableEq

/-- Python `CleaningState()`: construction with no arguments takes every
field's declared default. -/
def CleaningState.init : CleaningState := {}

/-- Construction of the agent-module `CleaningState` from explicit field
values.  pydantic checks only the declared field types (`float`, `str`,
`list[str]`); the embedding's arguments already have those types, so every
call validates and succeeds — in particular any string whatsoever is
accepted for `current_room`. -/
def CleaningState.validate (battery_level : ℚ) (current_room : String)
    (cleaning_path : List String) : Except PyExc CleaningState :=
  .ok ⟨battery_level, current_room, cleaning_path⟩

/-- The external IoT collaborator of `AdvancedCleaningAgent`, represented
by the outcomes of its two accessors: `get_battery_level()` either returns
a number or raises, and `get_current_room()` either returns a room
identifier or raises. -/
structure IotClient where
  get_battery_level : Except PyExc ℚ
  get_current_room : Except PyExc String

/-- The `AdvancedCleaningAgent` of `src/agents/cleaning_agent.py`: it owns
one `CleaningState` and a reference to the IoT collaborator. -/
structure AdvancedCleaningAgent where
  state : CleaningState
  iot : IotClient

/-- Python `AdvancedCleaningAgent.__init__(iot_client)`: sets
`self.state = CleaningState()` and stores the collaborator. -/
def AdvancedCleaningAgent.create (iot_client : IotClient) :
    AdvancedCleaningAgent :=
  ⟨CleaningState.init, iot_client⟩

/-- Python `AdvancedCleaningAgent.check_battery`:
`if self.state.battery_level < 20: raise LowBatteryError("Returning to dock")`.
The raised class is the agent-module `LowBatteryError`.  The method body
contains no assignment, so the state-passing embedding returns the agent
unchanged on success. -/
def AdvancedCleaningAgent.check_battery (a : AdvancedCleaningAgent) :
    Except PyExc AdvancedCleaningAgent :=
  if a.state.battery_level < 20 then
    .error ⟨.AgentLowBatteryError, "Returning to dock"⟩
  else
    .ok a

/-- Python `AdvancedCleaningAgent.update_sensors`:
`self.state.battery_level = self.iot.get_battery_level()` followed by
`self.state.current_room = self.iot.get_current_room()`.  Each right-hand
side is evaluated first; if it raises, the exception propagates with the
state as it stands at that point (the first assignment, if already
executed, is not rolled back).  The result pairs the propagated exception
(if any) with the agent after the call. -/
def AdvancedCleaningAgent.update_sensors (a : AdvancedCleaningAgent) :
    Option PyExc × AdvancedCleaningAgent :=
  match a.iot.get_battery_level with
  | .error e => (some e, a)
  | .ok b =>
      let a1 : AdvancedCleaningAgent :=
        { a with state := { a.state with battery_level := b } }
      match a1.iot.get_current_room with
      | .error e => (some e, a1)
      | .ok r =>
          (none, { a1 with state := { a1.state with current_room := r } })

/-- The `Room` string enumeration of `src/domain/models.py`: four members
with their string values. -/
inductive Room
  | LIVING
  | KITCHEN
  | BEDROOM
  | BATHROOM
  deriving DecidableEq

/-- The string value each `Room` member carries in the source
(`LIVING = "living_room"`, `KITCHEN = "kitchen"`, `BEDROOM = "bedroom"`,
`BATHROOM = "bathroom"`). -/
def Room.value : Room → String
  | .LIVING => "living_room"
  | .KITCHEN => "kitchen"
  | .BEDROOM => "bedroom"
  | .BATHROOM => "bathroom"

/-- pydantic coercion of a raw string into the `Room` str-enum: succeeds
exactly on the four member values, fails otherwise. -/
def Room.fromValue (s : String) : Option Room :=
  if s = "living_room" then some .LIVING
  else if s = "kitchen" then some .KITCHEN
  else if s = "bedroom" then some .BEDROOM
  else if s = "bathroom" then some .BATHROOM
  else none

namespace Models

/-- The enum-typed `CleaningState` pydantic model of
`src/domain/models.py`: `battery_level : float`, `current_room : Room`,
`cleaning_path : list[Room]`, `last_cleaned : dict[Room, str] = {}`. -/
structure CleaningState where
  battery_level : ℚ
  current_room : Room
  cleaning_path : List Room
  last_cleaned : List (Room × String) := []
  deriving DecidableEq

/-- Coerces every element of a raw string list into `Room`, failing with
pydantic's `ValidationError` on the first element outside the
enumeration. -/
def parseRoomList : List String → Except PyExc (List Room)
  | [] => .ok []
  | s :: rest =>
      match Room.fromValue s with
      | none => .error ⟨.ValidationError, "Input should be a member of Room"⟩
      | some r =>
          match parseRoomList rest with
          | .error e => .error e
          | .ok rs => .ok (r :: rs)

/-- Coerces every key of a raw string-keyed mapping into `Room`, failing
with pydantic's `ValidationError` on the first key outside the
enumeration. -/
def parseLastCleaned : List (String × String) → Except PyExc (List (Room × String))
  | [] => .ok []
  | (k, v) :: rest =>
      match Room.fromValue k with
      | none => .error ⟨.ValidationError, "Input should be a member of Room"⟩
      | some r =>
          match parseLastCleaned rest with
          | .error e => .error e
          | .ok rs => .ok ((r, v) :: rs)

/-- Construction of the domain-module `CleaningState` from raw field
values: pydantic validates `current_room` and every `cleaning_path`
element and `last_cleaned` key against the `Room` enumeration, raising
`ValidationError` on any value outside it.  `battery_level` is declared as
a bare `float`, so every number is accepted — the source states no range
constraint. -/
def CleaningState.validate (battery_level : ℚ) (current_room : String)
    (cleaning_path : List String) (last_cleaned : List (String × String)) :
    Except PyExc CleaningState :=
  match Room.fromValue current_room with
  | none => .error ⟨.ValidationError, "Input should be a member of Room"⟩
  | some room =>
      match parseRoomList cleaning_path with
      | .error e => .error e
      | .ok path =>
          match parseLastCleaned last_cleaned with
          | .error e => .error e
          | .ok lc => .ok ⟨battery_level, room, path, lc⟩

end Models

/-- A Python logger, represented by the list of messages of the records it
has emitted so far; `Logger.info` emits exactly one record carrying the
given message (the configured level is INFO, so info-level records are not
filtered out). -/
structure Logger where
  records : List String
  deriving DecidableEq

/-- Emitting one info-level record appends its message to the emitted
records. -/
def Logger.info (lg : Logger) (msg : String) : Logger :=
  ⟨lg.records ++ [msg]⟩

/-- Rendering of a battery/metric number inside a Python f-string.  No
claim constrains the digits of this rendering, only that the value's text
appears after the second separator; integral values render as Python
prints them (`"45.0"`), other rationals fall back to Lean's rendering. -/
def pyFloatStr (q : ℚ) : String :=
  if q.den = 1 then toString q.num ++ ".0" else toString q

/-- The `PerformanceLogger` of `src/infrastructure/logging.py`: wraps a
logger. -/
structure PerformanceLogger where
  logger : Logger
  deriving DecidableEq

/-- Python `PerformanceLogger.log_metric(name, value)`:
`self.logger.info(f"METRIC|{name}|{value}")` — a single `info` call with
the interpolated message, no return value. -/
def PerformanceLogger.log_metric (pl : PerformanceLogger) (name : String)
    (value : ℚ) : PerformanceLogger :=
  ⟨pl.logger.info ("METRIC|" ++ name ++ "|" ++ pyFloatStr value)⟩

/-- C1: for every agent, `check_battery` succeeds (leaving the agent
unchanged) exactly when `battery_level >= 20`, raises exactly when
`battery_level < 20`, and any successful run returns the agent itself —
the guard has no side effect on the state.  The boundary `b = 20` falls on
the success side because the source guard is strict `<`. -/
theorem C1_check_battery_guard (a : AdvancedCleaningAgent) :
    (a.check_battery = .ok a ↔ 20 ≤ a.state.battery_level) ∧
    ((∃ e : PyExc, a.check_battery = .error e) ↔ a.state.battery_level < 20) ∧
    (∀ a' : AdvancedCleaningAgent, a.check_battery = .ok a' → a' = a) := by
  unfold AdvancedCleaningAgent.check_battery
  by_cases h : a.state.battery_level < 20 <;> simp [h]
  exact not_lt.mp h

/-- C1 witness: at battery exactly 20 the guard succeeds with the agent
unchanged. -/
theorem C1_check_battery_guard_witness :
    AdvancedCleaningAgent.check_battery
        ⟨⟨20, "kitchen", []⟩, ⟨Except.ok 45, Except.ok "kitchen"⟩⟩ =
      Except.ok ⟨⟨20, "kitchen", []⟩, ⟨Except.ok 45, Except.ok "kitchen"⟩⟩ :=
  (C1_check_battery_guard _).1.mpr (le_refl 20)

/-- C2 counterexample: with a collaborator whose `get_battery_level`
returns `45.0` and whose `get_current_room` raises `SensorError`, the
refresh of a fresh agent (battery `100.0`) fails — yet afterwards
`battery_level` holds the new value `45`, so the state is not
atomic-or-untouched on failure. -/
theorem C2_refresh_not_atomic :
    (AdvancedCleaningAgent.update_sensors
        ⟨CleaningState.init,
          ⟨Except.ok 45, Except.error ⟨ExcClass.SensorError, "sensor offline"⟩⟩⟩).1 =
      some ⟨ExcClass.SensorError, "sensor offline"⟩ ∧
    (AdvancedCleaningAgent.update_sensors
        ⟨CleaningState.init,
          ⟨Except.ok 45, Except.error ⟨ExcClass.SensorError, "sensor offline"⟩⟩⟩).2.state.battery_level = 45 ∧
    CleaningState.init.battery_level = 100 :=
  ⟨rfl, rfl, rfl⟩

/-- C2 amended: `update_sensors` propagates the collaborator's exception
unchanged (so a SensorError surfaces exactly when the collaborator raises
one), but the refresh is sequential, not atomic: if `get_battery_level`
fails the whole state is untouched, while if `get_battery_level` succeeds
with `b` and `get_current_room` then fails, `battery_level` already holds
`b` and only `current_room` and `cleaning_path` are untouched. -/
theorem C2_refresh_failure_propagation (a : AdvancedCleaningAgent) :
    (∀ e : PyExc, a.iot.get_battery_level = .error e →
        a.update_sensors = (some e, a)) ∧
    (∀ (b : ℚ) (e : PyExc), a.iot.get_battery_level = .ok b →
        a.iot.get_current_room = .error e →
        a.update_sensors =
          (some e, { a with state := { a.state with battery_level := b } })) := by
  constructor
  · intro e he
    unfold AdvancedCleaningAgent.update_sensors
    rw [he]
  · intro b e hb hr
    unfold AdvancedCleaningAgent.update_sensors
    rw [hb]
    simp only []
    rw [hr]

/-- C2 witness: a collaborator whose battery accessor raises `SensorError`
makes the refresh surface that very exception with the agent untouched. -/
theorem C2_refresh_failure_propagation_witness :
    AdvancedCleaningAgent.update_sensors
        ⟨CleaningState.init,
          ⟨Except.error ⟨ExcClass.SensorError, "iot unreachable"⟩, Except.ok "kitchen"⟩⟩ =
      (some ⟨ExcClass.SensorError, "iot unreachable"⟩,
        ⟨CleaningState.init,
          ⟨Except.error ⟨ExcClass.SensorError, "iot unreachable"⟩, Except.ok "kitchen"⟩⟩) :=
  (C2_refresh_failure_propagation _).1 _ rfl

/-- C3 counterexample: `"garage"` is not a member of the `Room`
enumeration, yet constructing the agent-module `CleaningState` (the one
the controller actually uses, text-typed) with `current_room = "garage"`
succeeds — no ValidationError is raised. -/
theorem C3_room_validation_not_universal :
    Room.fromValue "garage" = none ∧
    CleaningState.validate 100 "garage" [] = Except.ok ⟨100, "garage", []⟩ :=
  ⟨rfl, rfl⟩

/-- C3 amended: only the enum-typed domain-module `CleaningState`
(`src/domain/models.py`) rejects a `current_room` value outside the `Room`
enumeration with a ValidationError kind at construction; the text-typed
agent-module `CleaningState` (`src/agents/cleaning_agent.py`) accepts any
string whatsoever for `current_room`. -/
theorem C3_room_validation (v : String) (hv : Room.fromValue v = none) :
    (∀ (b : ℚ) (path : List String) (lc : List (String × String)),
        Models.CleaningState.validate b v path lc =
          Except.error ⟨ExcClass.ValidationError, "Input should be a member of Room"⟩) ∧
    (∀ (b : ℚ) (path : List String),
        CleaningState.validate b v path = Except.ok ⟨b, v, path⟩) := by
  constructor
  · intro b path lc
    unfold Models.CleaningState.validate
    rw [hv]
  · intro b path
    rfl

/-- C3 witness: the domain-module model rejects `current_room = "garage"`
with ValidationError. -/
theorem C3_room_validation_witness :
    Models.CleaningState.validate 100 "garage" [] [] =
      Except.error ⟨ExcClass.ValidationError, "Input should be a member of Room"⟩ :=
  (C3_room_validation "garage" rfl).1 100 [] []

/-- C4: when both collaborator accessors succeed, returning `b` and `r`,
the refresh succeeds and yields exactly the state with `battery_level = b`
and `current_room = r`, with `cleaning_path` (and the stored collaborator)
untouched. -/
theorem C4_refresh_success_frame (a : AdvancedCleaningAgent) (b : ℚ) (r : String)
    (hb : a.iot.get_battery_level = .ok b)
    (hr : a.iot.get_current_room = .ok r) :
    a.update_sensors =
      (none, ⟨⟨b, r, a.state.cleaning_path⟩, a.iot⟩) := by
  unfold AdvancedCleaningAgent.update_sensors
  rw [hb]
  simp only []
  rw [hr]

/-- C4 witness: a collaborator returning `battery_level = 45`,
`current_room = "kitchen"` updates a fresh agent to exactly those values,
leaving the (empty) `cleaning_path` untouched. -/
theorem C4_refresh_success_frame_witness :
    AdvancedCleaningAgent.update_sensors
        ⟨CleaningState.init, ⟨Except.ok 45, Except.ok "kitchen"⟩⟩ =
      (none, ⟨⟨45, "kitchen", []⟩, ⟨Except.ok 45, Except.ok "kitchen"⟩⟩) :=
  C4_refresh_success_frame _ 45 "kitchen" rfl rfl

/-- C5: `CleaningState()` with no arguments yields
`battery_level = 100.0`, `current_room = "living_room"`,
`cleaning_path = []`, and on a freshly constructed agent (which holds
exactly that state) `check_battery` succeeds. -/
theorem C5_fresh_state_defaults :
    CleaningState.init.battery_level = 100 ∧
    CleaningState.init.current_room = "living_room" ∧
    CleaningState.init.cleaning_path = [] ∧
    ∀ iot : IotClient,
      (AdvancedCleaningAgent.create iot).check_battery =
        .ok (AdvancedCleaningAgent.create iot) :=
  ⟨rfl, rfl, rfl, fun _ => rfl⟩

/-- C6: whenever the battery level is below the threshold, `check_battery`
raises the agent-module LowBatteryError carrying exactly the message
"Returning to dock". -/
theorem C6_low_battery_message (a : AdvancedCleaningAgent)
    (h : a.state.battery_level < 20) :
    a.check_battery =
      Except.error ⟨ExcClass.AgentLowBatteryError, "Returning to dock"⟩ := by
  unfold AdvancedCleaningAgent.check_battery
  rw [if_pos h]

/-- C6 witness: at `battery_level = 15.0` the guard raises with message
"Returning to dock". -/
theorem C6_low_battery_message_witness :
    AdvancedCleaningAgent.check_battery
        ⟨⟨15, "bedroom", []⟩, ⟨Except.ok 15, Except.ok "bedroom"⟩⟩ =
      Except.error ⟨ExcClass.AgentLowBatteryError, "Returning to dock"⟩ :=
  C6_low_battery_message _ (by norm_num)

/-- C7 counterexample: `150.0` lies outside `[0, 100]`, yet constructing
either `CleaningState` variant with `battery_level = 150` succeeds — no
ValidationError is raised for an out-of-range battery. -/
theorem C7_battery_range_unenforced :
    ¬ (150 : ℚ) ≤ 100 ∧
    CleaningState.validate 150 "living_room" [] =
      Except.ok ⟨150, "living_room", []⟩ ∧
    Models.CleaningState.validate 150 "living_room" [] [] =
      Except.ok ⟨150, Room.LIVING, [], []⟩ :=
  ⟨by norm_num, rfl, rfl⟩

/-- C7 amended: neither `CleaningState` variant enforces the `[0, 100]`
battery range: construction succeeds for every value of `battery_level`
(the range is a semantic recommendation the source does not implement). -/
theorem C7_battery_accepts_any_value (b : ℚ) (room : String) (r : Room)
    (hr : Room.fromValue room = some r) :
    (∀ path : List String,
        CleaningState.validate b room path = Except.ok ⟨b, room, path⟩) ∧
    Models.CleaningState.validate b room [] [] = Except.ok ⟨b, r, [], []⟩ := by
  refine ⟨fun path => rfl, ?_⟩
  unfold Models.CleaningState.validate
  rw [hr]
  rfl

/-- C7 witness: battery `-5` (below the range) is accepted by both
variants. -/
theorem C7_battery_accepts_any_value_witness :
    CleaningState.validate (-5) "kitchen" [] = Except.ok ⟨-5, "kitchen", []⟩ ∧
    Models.CleaningState.validate (-5) "kitchen" [] [] =
      Except.ok ⟨-5, Room.KITCHEN, [], []⟩ :=
  ⟨(C7_battery_accepts_any_value (-5) "kitchen" Room.KITCHEN rfl).1 [],
    (C7_battery_accepts_any_value (-5) "kitchen" Room.KITCHEN rfl).2⟩

/-- C8: one call to `log_metric(name, value)` emits exactly one log
record, and its message is exactly `"METRIC|"` followed by the name, a
`"|"` separator, and the value's text. -/
theorem C8_log_metric_format (pl : PerformanceLogger) (name : String) (value : ℚ) :
    (pl.log_metric name value).logger.records =
      pl.logger.records ++ ["METRIC|" ++ name ++ "|" ++ pyFloatStr value] ∧
    (pl.log_metric name value).logger.records.length =
      pl.logger.records.length + 1 := by
  refine ⟨rfl, ?_⟩
  simp [PerformanceLogger.log_metric, Logger.info]

/-- C9: any exception `check_battery` raises has class
`AgentLowBatteryError`, the agent-module class — a direct subclass of the
built-in `Exception`, distinct from the domain-module `LowBatteryError`
and not a subclass of `SmartHomeError` — so neither an
`except SmartHomeError:` handler nor an `except`-clause on the
domain-module `LowBatteryError` catches it. -/
theorem C9_agent_error_class (a : AdvancedCleaningAgent) (e : PyExc)
    (h : a.check_battery = .error e) :
    e.cls = ExcClass.AgentLowBatteryError ∧
    ExcClass.AgentLowBatteryError ≠ ExcClass.DomainLowBatteryError ∧
    ExcClass.AgentLowBatteryError.parent = some ExcClass.Exception ∧
    ExcClass.isSubclassOf ExcClass.AgentLowBatteryError ExcClass.SmartHomeError = false ∧
    ExcClass.catches ExcClass.SmartHomeError e.cls = false ∧
    ExcClass.catches ExcClass.DomainLowBatteryError e.cls = false := by
  unfold AdvancedCleaningAgent.check_battery at h
  split at h
  · injection h with h'
    subst h'
    exact ⟨rfl, by decide, rfl, by decide, by decide, by decide⟩
  · exact absurd h (by simp)

/-- C9 witness: a low-battery agent raises an exception that the
`SmartHomeError` handler does not catch. -/
theorem C9_agent_error_class_witness :
    ExcClass.catches ExcClass.SmartHomeError
      (PyExc.mk ExcClass.AgentLowBatteryError "Returning to dock").cls = false :=
  (C9_agent_error_class
      ⟨⟨10, "kitchen", []⟩, ⟨Except.ok 10, Except.ok "kitchen"⟩⟩
      ⟨ExcClass.AgentLowBatteryError, "Returning to dock"⟩ rfl).2.2.2.2.1

/-- C10: the guard's outcome depends only on `battery_level` — two agents
agreeing on `battery_level` either both succeed (each returning its own
unchanged self) or raise exactly the same exception (same class, same
message), whatever their `current_room`, `cleaning_path` or collaborator. -/
theorem C10_guard_noninterference (a1 a2 : AdvancedCleaningAgent)
    (h : a1.state.battery_level = a2.state.battery_level) :
    (a1.check_battery = .ok a1 ↔ a2.check_battery = .ok a2) ∧
    ∀ e : PyExc, (a1.check_battery = .error e ↔ a2.check_battery = .error e) := by
  unfold AdvancedCleaningAgent.check_battery
  rw [h]
  by_cases h2 : a2.state.battery_level < 20 <;> simp [h2]

/-- C10 witness: two agents sharing `battery_level = 50` but differing in
room, path and collaborator both succeed. -/
theorem C10_guard_noninterference_witness :
    (AdvancedCleaningAgent.check_battery
        ⟨⟨50, "kitchen", ["bedroom"]⟩, ⟨Except.ok 1, Except.ok "kitchen"⟩⟩ =
      Except.ok ⟨⟨50, "kitchen", ["bedroom"]⟩, ⟨Except.ok 1, Except.ok "kitchen"⟩⟩) ↔
    (AdvancedCleaningAgent.check_battery
        ⟨⟨50, "bathroom", []⟩, ⟨Except.ok 2, Except.ok "bedroom"⟩⟩ =
      Except.ok ⟨⟨50, "bathroom", []⟩, ⟨Except.ok 2, Except.ok "bedroom"⟩⟩) :=
  (C10_guard_noninterference
      ⟨⟨50, "kitchen", ["bedroom"]⟩, ⟨Except.ok 1, Except.ok "kitchen"⟩⟩
      ⟨⟨50, "bathroom", []⟩, ⟨Except.ok 2, Except.ok "bedroom"⟩⟩ rfl).1
